import Mathlib

set_option linter.unusedVariables false
set_option linter.unreachableTactic false
set_option linter.unusedTactic false
set_option linter.unnecessarySeqFocus false
set_option linter.unnecessarySimpa false

/-!
Verification of the attendance state machine of the
`attendance-management-backend` repository.

The embedding works over integer timestamps in milliseconds since the epoch
(JavaScript `Date.getTime()`) and integer second counters.  JavaScript
`Math.floor(ms / 1000)` on integer millisecond differences is floor division,
embedded as `Int.fdiv ms 1000`.
-/

namespace Attendance

/-- The three workday states of the state machine (`StateTransitionService`). -/
inductive WorkState
  | WORKING
  | IDLE
  | LUNCH
deriving DecidableEq, Repr

/-- One row of the `attendance_records` table, restricted to the fields the
state machine reads and writes.  Timestamps are epoch milliseconds; the
`*_seconds` counters are integer seconds (the database stores them as
integers, read back through `COALESCE(x, 0)` / `x || 0`, hence `Int` with
default `0`). -/
structure AttendanceRecord where
  check_in_time : Option Int := none
  check_out_time : Option Int := none
  current_state : Option WorkState := none
  last_state_change_at : Option Int := none
  active_seconds : Int := 0
  idle_seconds : Int := 0
  lunch_seconds : Int := 0
  total_work_duration : Option Int := none
  total_active_duration : Option Int := none
  total_idle_duration : Option Int := none
  total_break_duration : Option Int := none
deriving DecidableEq, Repr

/-- Result of `StateTransitionService.getCurrentStateDuration`. -/
structure StateDuration where
  state : Option WorkState
  duration : Int
deriving DecidableEq, Repr

/-- Embedding of `StateTransitionService.applyStateTransition`
(src/unnamed/part_014, lines 955-1037).  With no current state (or no
`last_state_change_at`) it initialises the state.  Otherwise it computes
`durationSeconds = Math.floor((eventTime - lastStateChangeAt) / 1000)`;
if that is negative the record is returned unchanged, else the duration is
credited to the counter of the PREVIOUS state and the new state and event
time are written. -/
def applyStateTransition (attendance : AttendanceRecord) (newState : WorkState)
    (eventTime : Int) : AttendanceRecord :=
  match attendance.current_state, attendance.last_state_change_at with
  | some currentState, some lastStateChangeAt =>
    let durationMs := eventTime - lastStateChangeAt
    let durationSeconds := Int.fdiv durationMs 1000
    if durationSeconds < 0 then
      attendance
    else
      match currentState with
      | .WORKING =>
        { attendance with
            active_seconds := attendance.active_seconds + durationSeconds,
            current_state := some newState,
            last_state_change_at := some eventTime }
      | .IDLE =>
        { attendance with
            idle_seconds := attendance.idle_seconds + durationSeconds,
            current_state := some newState,
            last_state_change_at := some eventTime }
      | .LUNCH =>
        { attendance with
            lunch_seconds := attendance.lunch_seconds + durationSeconds,
            current_state := some newState,
            last_state_change_at := some eventTime }
  | _, _ =>
    { attendance with
        current_state := some newState,
        last_state_change_at := some eventTime }

/-- Embedding of `StateTransitionService.finalizeState`
(src/unnamed/part_014, lines 1047-1106).  With no active state it returns
the record unchanged.  Otherwise it credits
`Math.max(0, Math.floor((eventTime - lastStateChangeAt) / 1000))` seconds
to the counter of the current state and clears `current_state` and
`last_state_change_at`. -/
def finalizeState (attendance : AttendanceRecord) (eventTime : Int) :
    AttendanceRecord :=
  match attendance.current_state, attendance.last_state_change_at with
  | some currentState, some lastStateChangeAt =>
    let durationMs := eventTime - lastStateChangeAt
    let durationSeconds := max 0 (Int.fdiv durationMs 1000)
    match currentState with
    | .WORKING =>
      { attendance with
          active_seconds := attendance.active_seconds + durationSeconds,
          current_state := none,
          last_state_change_at := none }
    | .IDLE =>
      { attendance with
          idle_seconds := attendance.idle_seconds + durationSeconds,
          current_state := none,
          last_state_change_at := none }
    | .LUNCH =>
      { attendance with
          lunch_seconds := attendance.lunch_seconds + durationSeconds,
          current_state := none,
          last_state_change_at := none }
  | _, _ => attendance

/-- Embedding of `StateTransitionService.getCurrentStateDuration`
(src/unnamed/part_014, lines 1115-1127): a read-only view that reports the
current state and `Math.max(0, Math.floor((currentTime - lastStateChangeAt)
/ 1000))`, or `(null, 0)` when no state is open. -/
def getCurrentStateDuration (attendance : AttendanceRecord)
    (currentTime : Int) : StateDuration :=
  match attendance.current_state, attendance.last_state_change_at with
  | some s, some lastStateChangeAt =>
    { state := some s
      duration := max 0 (Int.fdiv (currentTime - lastStateChangeAt) 1000) }
  | _, _ => { state := none, duration := 0 }

/-- Result type of `clampDurations`. -/
structure ClampedDurations where
  totalWork : Int
  totalActive : Int
  totalIdle : Int
deriving DecidableEq, Repr

/-- Embedding of `clampDurations` (src/unnamed/part_014, lines 8-27, and
src/unnamed/part_000, lines 6-20): clamps each input at zero, returns all
zeroes when the clamped work is zero, and otherwise trims any excess of
`active + idle` over `work` from idle first, then from active. -/
def clampDurations (totalWork totalActive totalIdle : Int) : ClampedDurations :=
  let work := max 0 totalWork
  let active := max 0 totalActive
  let idle := max 0 totalIdle
  if work = 0 then
    { totalWork := 0, totalActive := 0, totalIdle := 0 }
  else
    let sum := active + idle
    if work < sum then
      let excess := sum - work
      let newIdle := max 0 (idle - excess)
      let remainingExcess := max 0 (excess - (idle - newIdle))
      let newActive := max 0 (active - remainingExcess)
      { totalWork := work, totalActive := newActive, totalIdle := newIdle }
    else
      { totalWork := work, totalActive := active, totalIdle := idle }

/-- Result of `AttendanceService.checkIn`. -/
inductive CheckInResult
  | alreadyCheckedIn
  | checkedIn (attendance : AttendanceRecord)
deriving DecidableEq, Repr

/-- Embedding of `AttendanceService.checkIn` (src/unnamed/part_014, lines
30-155), restricted to the attendance row.  With an existing row that is
checked in and not checked out it rejects.  With a checked-out row
(re-check-in) it clears the check-out fields and the legacy mirror totals,
adds `Math.max(0, Math.floor((now - check_out_time) / 1000))` to
`idle_seconds` and nulls the state pair.  With a pre-created row it stamps
`check_in_time`; with no row it inserts a fresh one.  All paths then run
`applyStateTransition(attendance, WORKING, now)`, which initialises the
state because `current_state` is null at that point in every path. -/
def checkIn (existing : Option AttendanceRecord) (now : Int) : CheckInResult :=
  match existing with
  | some ex =>
    if ex.check_in_time.isSome ∧ ex.check_out_time = none then
      .alreadyCheckedIn
    else
      let updated :=
        match ex.check_out_time with
        | some checkOutTime =>
          let gapSeconds := max 0 (Int.fdiv (now - checkOutTime) 1000)
          { ex with
              check_out_time := none,
              total_work_duration := none,
              total_active_duration := none,
              total_idle_duration := none,
              total_break_duration := none,
              idle_seconds := ex.idle_seconds + gapSeconds,
              current_state := none,
              last_state_change_at := none }
        | none => { ex with check_in_time := some now }
      .checkedIn (applyStateTransition updated .WORKING now)
  | none =>
    let fresh : AttendanceRecord := { check_in_time := some now }
    .checkedIn (applyStateTransition fresh .WORKING now)

/-- Result of `AttendanceService.checkOut`. -/
inductive CheckOutResult
  | notCheckedIn
  | alreadyCheckedOut
  | checkedOut (attendance : AttendanceRecord)
deriving DecidableEq, Repr

/-- Embedding of `AttendanceService.checkOut` (src/unnamed/part_014, lines
157-250), restricted to the attendance row.  It rejects when no row exists
or the row is already checked out; otherwise it runs
`finalizeState(attendance, now)`, reads the three counters back and writes
`check_out_time = now` together with the legacy mirror totals
(`total_work_duration = active + idle`). -/
def checkOut (existing : Option AttendanceRecord) (now : Int) : CheckOutResult :=
  match existing with
  | none => .notCheckedIn
  | some attendance0 =>
    if attendance0.check_out_time.isSome then
      .alreadyCheckedOut
    else
      let attendance := finalizeState attendance0 now
      let totalActive := attendance.active_seconds
      let totalIdle := attendance.idle_seconds
      let totalBreak := attendance.lunch_seconds
      let totalWork := totalActive + totalIdle
      .checkedOut { attendance with
          check_out_time := some now,
          total_work_duration := some totalWork,
          total_active_duration := some totalActive,
          total_idle_duration := some totalIdle,
          total_break_duration := some totalBreak }

/-- Input counters of one heartbeat (`activityData` in
`ActivityService.processHeartbeat`); defaults mirror the destructuring
defaults in the source. -/
structure HeartbeatSample where
  mouse_clicks : Int := 0
  keyboard_strokes : Int := 0
  idle_time_seconds : Int := 0
deriving DecidableEq, Repr

/-- The cached `user:{id}:last_activity` value. -/
structure CachedActivity where
  lastInputTs : Int
  lastHeartbeatTs : Int
deriving DecidableEq, Repr

/-- Result of `ActivityService.processHeartbeat`.  `processed` carries the
updated attendance row and the `{lastInputTs, lastHeartbeatTs}` pair written
back to the cache. -/
inductive HeartbeatResult
  | notCheckedIn
  | alreadyCheckedOut
  | autoCheckedOut (checkoutResult : CheckOutResult)
  | processed (attendance : AttendanceRecord)
      (cachedLastInputTs cachedLastHeartbeatTs : Int)
deriving DecidableEq, Repr

/-- Embedding of `ActivityService.processHeartbeat`
(src/src/services/activityService.js, lines 281-443).  `lastInputTs` is
initialised to `now` and overridden to `now - idle_time_seconds * 1000`
when `idle_time_seconds > 0`; the `else if (cachedActivity)` branch of the
source contains only comments, so the cached value is never consulted.
A gap above 60 minutes triggers the check-out command (run at `now` in its
own transaction).  A gap above 5 minutes on a WORKING record back-dates an
IDLE transition to `lastInputTs`.  Then `hasInput = mouse_clicks +
keyboard_strokes > 0` resets `lastInputTs` to `now`, the desired state is
decided, and a transition is applied at `max(lastInputTs,
last_state_change_at)` unless the current state is LUNCH or already the
desired one.  The comparisons on fractional seconds
(`(now - lastInputTs) / 1000 > 3600` and the like) are exact integer
millisecond comparisons. -/
def processHeartbeat (existing : Option AttendanceRecord)
    (cachedActivity : Option CachedActivity) (sample : HeartbeatSample)
    (now : Int) : HeartbeatResult :=
  match existing with
  | none => .notCheckedIn
  | some attendance0 =>
    if attendance0.check_out_time.isSome then
      .alreadyCheckedOut
    else
      let lastInputTs0 : Int :=
        if 0 < sample.idle_time_seconds then
          now - sample.idle_time_seconds * 1000
        else now
      if 3600 * 1000 < now - lastInputTs0 then
        .autoCheckedOut (checkOut (some attendance0) now)
      else
        let attendance1 :=
          if 300 * 1000 < now - lastInputTs0 ∧
              attendance0.current_state = some .WORKING then
            applyStateTransition attendance0 .IDLE lastInputTs0
          else attendance0
        let hasInput := 0 < sample.mouse_clicks + sample.keyboard_strokes
        let lastInputTs := if hasInput then now else lastInputTs0
        let currentShouldBeWorking :=
          hasInput ∨ now - lastInputTs < 300 * 1000
        let desiredState :=
          if currentShouldBeWorking then WorkState.WORKING else WorkState.IDLE
        let lastStateChangeTime := attendance1.last_state_change_at.getD 0
        let transitionTime := max lastInputTs lastStateChangeTime
        let attendance2 :=
          if attendance1.current_state ≠ none ∧
              attendance1.current_state ≠ some desiredState ∧
              attendance1.current_state ≠ some .LUNCH then
            applyStateTransition attendance1 desiredState transitionTime
          else attendance1
        .processed attendance2 lastInputTs now

/-- Per-record outcome of the gap detector
(`ActivityService.checkForIdleUsers`). -/
inductive GapDetectorAction
  | skipped
  | autoCheckedOut (checkoutResult : CheckOutResult)
  | markedIdle (attendance : AttendanceRecord)
  | noAction
deriving DecidableEq, Repr

/-- Embedding of one record's step of `ActivityService.checkForIdleUsers`
(src/src/services/activityService.js, lines 446-546).  The SQL pre-selects
records with `check_out_time IS NULL` and `current_state IN (WORKING,
IDLE)`; those guards appear as hypotheses of the theorems.  With no cache
entry the record is skipped.  With `now - lastHeartbeatTs > 60 min` the
check-out command is invoked (` idleSince = lastHeartbeatTs + 5 min` is
passed only through the command's location parameter, which never reaches
the attendance row).  With `now - lastHeartbeatTs > 5 min` on a still
WORKING record an IDLE transition is applied at `lastHeartbeatTs + 5 min`. -/
def checkForIdleUsersStep (record : AttendanceRecord)
    (cachedActivity : Option CachedActivity) (now : Int) : GapDetectorAction :=
  match cachedActivity with
  | none => .skipped
  | some cached =>
    if 3600 * 1000 < now - cached.lastHeartbeatTs then
      .autoCheckedOut (checkOut (some record) now)
    else if 300 * 1000 < now - cached.lastHeartbeatTs ∧
        record.current_state = some .WORKING then
      .markedIdle
        (applyStateTransition record .IDLE (cached.lastHeartbeatTs + 300 * 1000))
    else .noAction

/-- Effects of one record's step of the excessive-idle closer, beyond the
attendance row itself: the time at which open activity-log segments and
open lunch breaks were closed, and whether the user's cache entries were
deleted. -/
structure ReconcilerStepResult where
  attendance : AttendanceRecord
  activityLogsClosedAt : Int
  lunchBreaksClosedAt : Int
  cacheCleared : Bool
deriving DecidableEq, Repr

/-- Embedding of one record's step of `autoCheckOutIdleUsers`
(src/src/jobs/autoCheckOutIdle.js, lines 36-99).  The job selects records
with `check_out_time IS NULL`, `current_state = IDLE` and an idle stretch
above 30 minutes, computes `checkOutTime = last_state_change_at + 30 min`,
finalises the state at that capped time, closes open activity logs and open
lunch breaks at the same time, writes the legacy mirror totals from the
counters (`total_work_duration = active + idle`) and clears the cache. -/
def autoCheckOutIdleStep (record : AttendanceRecord) (now : Int) :
    Option ReconcilerStepResult :=
  match record.current_state, record.last_state_change_at with
  | some .IDLE, some lastStateChangeAt =>
    if record.check_out_time = none ∧
        30 * 60 < Int.fdiv (now - lastStateChangeAt) 1000 then
      let checkOutTime := lastStateChangeAt + 30 * 60 * 1000
      let attendance := finalizeState record checkOutTime
      let totalActive := attendance.active_seconds
      let totalIdle := attendance.idle_seconds
      let totalBreak := attendance.lunch_seconds
      let totalWork := totalActive + totalIdle
      some {
        attendance := { attendance with
          check_out_time := some checkOutTime,
          total_work_duration := some totalWork,
          total_active_duration := some totalActive,
          total_idle_duration := some totalIdle,
          total_break_duration := some totalBreak }
        activityLogsClosedAt := checkOutTime
        lunchBreaksClosedAt := checkOutTime
        cacheCleared := true }
    else none
  | _, _ => none

/-- Pointwise order on the three counters of two attendance rows: the claim
that no committed operation ever decreases `active_seconds`, `idle_seconds`
or `lunch_seconds`. -/
def countersLE (a b : AttendanceRecord) : Prop :=
  a.active_seconds ≤ b.active_seconds ∧
  a.idle_seconds ≤ b.idle_seconds ∧
  a.lunch_seconds ≤ b.lunch_seconds

instance (a b : AttendanceRecord) : Decidable (countersLE a b) := by
  unfold countersLE
  infer_instance

/-- Nonnegativity of the three counters of an attendance row. -/
def countersNonneg (a : AttendanceRecord) : Prop :=
  0 ≤ a.active_seconds ∧ 0 ≤ a.idle_seconds ∧ 0 ≤ a.lunch_seconds

instance (a : AttendanceRecord) : Decidable (countersNonneg a) := by
  unfold countersNonneg
  infer_instance

/-! ## Helper lemmas -/

/-- Floor division of a negative millisecond difference by 1000 is negative,
so the rejection guard of `applyStateTransition` fires exactly when the
event time is in the past. -/
lemma fdiv_1000_neg {a : Int} (h : a < 0) : Int.fdiv a 1000 < 0 :=
  Int.fdiv_neg' h (by norm_num)

lemma fdiv_1000_nonneg {a : Int} (h : 0 ≤ a) : 0 ≤ Int.fdiv a 1000 :=
  Int.fdiv_nonneg h (by norm_num)

/-! ## C1 -/

/-- C1: for every attendance record with a non-empty `current_state` and
every event time earlier than the record's `last_state_change_at`,
`applyStateTransition(record, newState, at)` performs no update: no counter
is incremented, `current_state` and `last_state_change_at` keep their old
values, and the caller receives the original record unchanged. -/
theorem applyTransition_rejects_past_events
    (attendance : AttendanceRecord) (s newState : WorkState)
    (lastStateChangeAt eventTime : Int)
    (hstate : attendance.current_state = some s)
    (hlast : attendance.last_state_change_at = some lastStateChangeAt)
    (hlt : eventTime < lastStateChangeAt) :
    applyStateTransition attendance newState eventTime = attendance := by
  have hneg : Int.fdiv (eventTime - lastStateChangeAt) 1000 < 0 :=
    fdiv_1000_neg (by omega)
  unfold applyStateTransition
  rw [hstate, hlast]
  simp only [if_pos hneg]

/-- Witness for C1 at a concrete record: a transition submitted 4 seconds
before the last state change leaves the record, its counters included,
untouched. -/
theorem applyTransition_rejects_past_events_witness :
    applyStateTransition
      { current_state := some WorkState.WORKING,
        last_state_change_at := some 5000, active_seconds := 7 }
      WorkState.IDLE 1000
    = { current_state := some WorkState.WORKING,
        last_state_change_at := some 5000, active_seconds := 7 } :=
  applyTransition_rejects_past_events _ WorkState.WORKING WorkState.IDLE
    5000 1000 rfl rfl (by norm_num)

/-! ## C2 -/

/-- C2 counterexample: `finalizeState` does NOT leave the record unchanged
on a negative delta.  For a record in WORKING with
`last_state_change_at = 1000000` and an event time `0` earlier than that,
the claim predicts the original record back; the code clamps the delta to
zero and still clears `current_state` and `last_state_change_at`, so the
result differs from the input. -/
theorem finalizeState_negative_delta_cex :
    finalizeState
      { current_state := some WorkState.WORKING,
        last_state_change_at := some 1000000 } 0
    ≠ { current_state := some WorkState.WORKING,
        last_state_change_at := some 1000000 } := by
  decide

/-- C2 (amended): `finalizeState(record, at)` selects the counter exactly as
a transition does, but on `at < last_state_change_at` it clamps the
negative delta to zero (crediting 0 seconds) and still clears
`current_state` and `last_state_change_at`; it does not leave the record
unchanged the way a rejected transition would. -/
theorem finalizeState_clamps_negative_delta
    (attendance : AttendanceRecord) (s : WorkState)
    (lastStateChangeAt eventTime : Int)
    (hstate : attendance.current_state = some s)
    (hlast : attendance.last_state_change_at = some lastStateChangeAt)
    (hlt : eventTime < lastStateChangeAt) :
    finalizeState attendance eventTime =
      { attendance with current_state := none, last_state_change_at := none } := by
  have h0 : max 0 (Int.fdiv (eventTime - lastStateChangeAt) 1000) = 0 :=
    max_eq_left (le_of_lt (fdiv_1000_neg (by omega)))
  unfold finalizeState
  rw [hstate, hlast]
  cases s <;> simp [h0]

/-- Witness for C2's amended theorem at a concrete record. -/
theorem finalizeState_clamps_negative_delta_witness :
    finalizeState
      { current_state := some WorkState.IDLE,
        last_state_change_at := some 9000, idle_seconds := 3 } 2000
    = { current_state := none, last_state_change_at := none,
        idle_seconds := 3 } :=
  finalizeState_clamps_negative_delta _ WorkState.IDLE 9000 2000 rfl rfl
    (by norm_num)

/-! ## C10 -/

/-- C10: the read-only live view `getCurrentStateDuration` is total and
never reports a negative duration: with `current_state` or
`last_state_change_at` empty it returns state `none` with duration `0`, and
for every record and every `now` — even one earlier than
`last_state_change_at` — the returned duration is nonnegative.  Being a
pure function of the record, it mutates nothing. -/
theorem getCurrentStateDuration_safe (attendance : AttendanceRecord)
    (now : Int) :
    0 ≤ (getCurrentStateDuration attendance now).duration ∧
    ((attendance.current_state = none ∨
        attendance.last_state_change_at = none) →
      getCurrentStateDuration attendance now = { state := none, duration := 0 }) := by
  constructor
  · unfold getCurrentStateDuration
    cases hs : attendance.current_state <;>
      cases hl : attendance.last_state_change_at <;> simp
  · rintro (h | h) <;> unfold getCurrentStateDuration
    · rw [h]
    · rw [h]
      cases attendance.current_state <;> rfl

/-- Witness for C10: a record with no open state reports `(none, 0)`, a
nonnegative duration, even at a `now` far in the past. -/
theorem getCurrentStateDuration_safe_witness :
    0 ≤ (getCurrentStateDuration { } (-500)).duration ∧
    getCurrentStateDuration { } (-500) = { state := none, duration := 0 } :=
  ⟨(getCurrentStateDuration_safe { } (-500)).1,
   (getCurrentStateDuration_safe { } (-500)).2 (Or.inl rfl)⟩

/-! ## C7 -/

lemma clampDurations_nonneg_and_le (w a i : Int) :
    0 ≤ (clampDurations w a i).totalWork ∧
    0 ≤ (clampDurations w a i).totalActive ∧
    0 ≤ (clampDurations w a i).totalIdle ∧
    (clampDurations w a i).totalActive + (clampDurations w a i).totalIdle ≤
      (clampDurations w a i).totalWork := by
  simp only [clampDurations]
  split_ifs with h1 h2 <;> simp <;> omega

lemma clampDurations_eq_self {w a i : Int} (hw : 0 ≤ w) (ha : 0 ≤ a)
    (hi : 0 ≤ i) (hle : a + i ≤ w) :
    clampDurations w a i = ⟨w, a, i⟩ := by
  simp only [clampDurations]
  rw [max_eq_right hw, max_eq_right ha, max_eq_right hi]
  split_ifs with h1 h2
  · simp only [ClampedDurations.mk.injEq]
    omega
  · omega
  · rfl

/-- C7: the clamping rule is a pure function of `(work, active, idle)` that,
whenever `active + idle > work`, removes the excess from idle first and
touches active only once idle is exhausted (`totalActive` differs from the
zero-clamped input only when `totalIdle` has been driven to `0`), never
drives any component below zero, always returns components with
`active + idle ≤ work`, and is idempotent. -/
theorem clampDurations_spec (w a i : Int) :
    0 ≤ (clampDurations w a i).totalWork ∧
    0 ≤ (clampDurations w a i).totalActive ∧
    0 ≤ (clampDurations w a i).totalIdle ∧
    (clampDurations w a i).totalActive + (clampDurations w a i).totalIdle ≤
      (clampDurations w a i).totalWork ∧
    ((clampDurations w a i).totalActive ≠ max 0 a →
      (clampDurations w a i).totalIdle = 0) ∧
    clampDurations (clampDurations w a i).totalWork
        (clampDurations w a i).totalActive (clampDurations w a i).totalIdle =
      clampDurations w a i := by
  obtain ⟨hw, ha, hi, hle⟩ := clampDurations_nonneg_and_le w a i
  refine ⟨hw, ha, hi, hle, ?_, ?_⟩
  · simp only [clampDurations]
    split_ifs with h1 h2 <;> simp <;> omega
  · rw [clampDurations_eq_self hw ha hi hle]

/-- Witness for C7 at `(work, active, idle) = (5, 8, 2)`: the excess of 5 is
absorbed by zeroing idle (2) and then trimming active by the remaining 3,
and re-clamping the result is the identity. -/
theorem clampDurations_spec_witness :
    (clampDurations 5 8 2).totalIdle = 0 ∧
    clampDurations (clampDurations 5 8 2).totalWork
        (clampDurations 5 8 2).totalActive (clampDurations 5 8 2).totalIdle =
      clampDurations 5 8 2 :=
  ⟨(clampDurations_spec 5 8 2).2.2.2.2.1 (by decide),
   (clampDurations_spec 5 8 2).2.2.2.2.2⟩

/-! ## Counter monotonicity helpers -/

lemma countersLE_refl (a : AttendanceRecord) : countersLE a a :=
  ⟨le_refl _, le_refl _, le_refl _⟩

lemma countersLE_trans {a b c : AttendanceRecord} (h1 : countersLE a b)
    (h2 : countersLE b c) : countersLE a c :=
  ⟨le_trans h1.1 h2.1, le_trans h1.2.1 h2.2.1, le_trans h1.2.2 h2.2.2⟩

lemma countersLE_applyStateTransition (att : AttendanceRecord)
    (s : WorkState) (t : Int) : countersLE att (applyStateTransition att s t) := by
  unfold applyStateTransition
  cases hc : att.current_state with
  | none => simp [countersLE]
  | some c =>
    cases hl : att.last_state_change_at with
    | none => simp [countersLE]
    | some l =>
      simp only
      split_ifs with h
      · exact countersLE_refl _
      · cases c <;> simp [countersLE] <;> omega

lemma countersLE_finalizeState (att : AttendanceRecord) (t : Int) :
    countersLE att (finalizeState att t) := by
  unfold finalizeState
  cases hc : att.current_state with
  | none => simp [countersLE]
  | some c =>
    cases hl : att.last_state_change_at with
    | none => simp [countersLE]
    | some l =>
      have h0 : 0 ≤ max 0 (Int.fdiv (t - l) 1000) := le_max_left _ _
      cases c <;> simp [countersLE] <;> omega

lemma countersLE_ite_apply (att : AttendanceRecord) (c : Prop) [Decidable c]
    (s : WorkState) (t : Int) :
    countersLE att (if c then applyStateTransition att s t else att) := by
  split_ifs
  · exact countersLE_applyStateTransition att s t
  · exact countersLE_refl att

/-! ## C3 -/

/-- C3 counterexample: the spec's cache fallback does not exist.  A
heartbeat with `idle_time_seconds = 0` and no input (no clicks, no
keystrokes), processed at `now = 10000000` against a cache entry holding
`lastInputTs = 0`, should — per the claim — keep the cached value `0`.
The code derives `lastInputTs = now = 10000000` instead (the
`else if (cachedActivity)` branch contains only comments), caching
`10000000 ≠ 0`. -/
theorem processHeartbeat_cached_lastInputTs_cex :
    processHeartbeat
      (some { check_in_time := some 0,
              current_state := some WorkState.WORKING,
              last_state_change_at := some 0 })
      (some { lastInputTs := 0, lastHeartbeatTs := 9990000 })
      { } 10000000
    = .processed
        { check_in_time := some 0,
          current_state := some WorkState.WORKING,
          last_state_change_at := some 0 } 10000000 10000000
    ∧ (10000000 : Int) ≠ 0 := by
  exact ⟨by decide, by norm_num⟩

/-- C3 (amended): for every processed heartbeat the server derives
`lastInputTs` without ever consulting the cached value — the whole
heartbeat computation is independent of the cache entry — as:
`now` when the heartbeat carries input (`mouse_clicks + keyboard_strokes >
0`); otherwise `now − idle_time_seconds × 1s` when the client supplied
`idle_time_seconds > 0`; otherwise `now`.  The cached `lastHeartbeatTs` is
always rewritten to `now`. -/
theorem processHeartbeat_lastInputTs_derivation
    (attendance : AttendanceRecord) (cachedActivity : Option CachedActivity)
    (sample : HeartbeatSample) (now : Int) :
    processHeartbeat (some attendance) cachedActivity sample now =
      processHeartbeat (some attendance) none sample now ∧
    (∀ att lts hbts,
      processHeartbeat (some attendance) cachedActivity sample now =
        .processed att lts hbts →
      lts = (if 0 < sample.mouse_clicks + sample.keyboard_strokes then now
             else if 0 < sample.idle_time_seconds then
               now - sample.idle_time_seconds * 1000
             else now) ∧
      hbts = now) := by
  refine ⟨rfl, ?_⟩
  intro att lts hbts h
  simp only [processHeartbeat] at h
  split at h
  · exact absurd h (by simp)
  · by_cases hidle : 0 < sample.idle_time_seconds
    · simp only [if_pos hidle] at h ⊢
      split at h
      · exact absurd h (by simp)
      · rw [HeartbeatResult.processed.injEq] at h
        exact ⟨h.2.1.symm, h.2.2.symm⟩
    · simp only [if_neg hidle] at h ⊢
      split at h
      · exact absurd h (by simp)
      · rw [HeartbeatResult.processed.injEq] at h
        exact ⟨h.2.1.symm, h.2.2.symm⟩

/-- Witness for C3's amended theorem: a no-input heartbeat with
`idle_time_seconds = 40` at `now = 400000` derives
`lastInputTs = 400000 − 40000 = 360000` and caches
`lastHeartbeatTs = 400000`. -/
theorem processHeartbeat_lastInputTs_derivation_witness :
    (360000 : Int) =
      (if (0 : Int) < 0 + 0 then 400000
       else if (0 : Int) < 40 then 400000 - 40 * 1000
       else 400000) ∧
    (400000 : Int) = 400000 :=
  (processHeartbeat_lastInputTs_derivation
      { check_in_time := some 0,
        current_state := some WorkState.WORKING,
        last_state_change_at := some 0 }
      (some { lastInputTs := 0, lastHeartbeatTs := 0 })
      { idle_time_seconds := 40 } 400000).2
    { check_in_time := some 0,
      current_state := some WorkState.WORKING,
      last_state_change_at := some 0 }
    360000 400000 (by decide)

/-! ## C9 -/

/-- C9: heartbeat processing never transitions a record in LUNCH to WORKING
or IDLE.  For every heartbeat against a not-checked-out record whose
`current_state = LUNCH`, either the 60-minute gap triggers the check-out
command, or the heartbeat commits with the record completely unchanged —
neither the retroactive-idle step (guarded on WORKING) nor the
desired-state step (guarded on `≠ LUNCH`) fires — so the record stays in
LUNCH until an explicit end-break or check-out. -/
theorem processHeartbeat_preserves_lunch
    (attendance : AttendanceRecord) (cachedActivity : Option CachedActivity)
    (sample : HeartbeatSample) (now : Int)
    (hstate : attendance.current_state = some WorkState.LUNCH)
    (hco : attendance.check_out_time = none) :
    processHeartbeat (some attendance) cachedActivity sample now =
      .autoCheckedOut (checkOut (some attendance) now) ∨
    ∃ lts, processHeartbeat (some attendance) cachedActivity sample now =
      .processed attendance lts now := by
  simp only [processHeartbeat, hco, Option.isSome_none, Bool.false_eq_true,
    if_false, hstate]
  split_ifs with h1 h2 h3 <;> simp_all

/-- Witness for C9: a concrete LUNCH record survives a no-input heartbeat
unchanged. -/
theorem processHeartbeat_preserves_lunch_witness :
    processHeartbeat
      (some { check_in_time := some 0,
              current_state := some WorkState.LUNCH,
              last_state_change_at := some 0 })
      none { } 1000
    = .autoCheckedOut
        (checkOut (some { check_in_time := some 0,
                          current_state := some WorkState.LUNCH,
                          last_state_change_at := some 0 }) 1000) ∨
    ∃ lts, processHeartbeat
      (some { check_in_time := some 0,
              current_state := some WorkState.LUNCH,
              last_state_change_at := some 0 })
      none { } 1000
    = .processed
        { check_in_time := some 0,
          current_state := some WorkState.LUNCH,
          last_state_change_at := some 0 } lts 1000 :=
  processHeartbeat_preserves_lunch _ none { } 1000 rfl rfl

/-! ## C4 -/

/-- C4 counterexample: the gap detector does not check the record out at
`lastHeartbeatTs + 5 minutes`.  For a WORKING record with
`last_state_change_at = 0` and a cache entry with `lastHeartbeatTs = 0`,
one gap-detector step at `now = 7200000` (2 hours) invokes the check-out
command, which finalises the state at `now` — crediting 7200 seconds, not
300 — and sets `check_out_time = 7200000`, not `0 + 300000`. -/
theorem checkForIdleUsersStep_checkout_time_cex :
    checkForIdleUsersStep
      { check_in_time := some 0,
        current_state := some WorkState.WORKING,
        last_state_change_at := some 0 }
      (some { lastInputTs := 0, lastHeartbeatTs := 0 }) 7200000
    = .autoCheckedOut (.checkedOut
        { check_in_time := some 0, check_out_time := some 7200000,
          active_seconds := 7200,
          total_work_duration := some 7200,
          total_active_duration := some 7200,
          total_idle_duration := some 0,
          total_break_duration := some 0 })
    ∧ (7200000 : Int) ≠ 0 + 300 * 1000 := by
  exact ⟨by decide, by norm_num⟩

/-- C4 (amended): for every checked-in record in WORKING or IDLE whose
cached `lastHeartbeatTs` satisfies `now − lastHeartbeatTs > 60 minutes`,
one run of the gap detector invokes the check-out command, which sets
`check_out_time = now` and finalises the credited durations at `now` —
`lastHeartbeatTs + 5 minutes` is only forwarded as metadata through the
command's location parameter and never reaches the attendance row; records
with no cache entry are skipped. -/
theorem checkForIdleUsersStep_checkout_at_now
    (record : AttendanceRecord) (cached : CachedActivity) (now : Int)
    (hco : record.check_out_time = none)
    (hgap : 3600 * 1000 < now - cached.lastHeartbeatTs) :
    checkForIdleUsersStep record (some cached) now =
      .autoCheckedOut (checkOut (some record) now) ∧
    (∀ att, checkOut (some record) now = .checkedOut att →
      att = { finalizeState record now with
              check_out_time := some now,
              total_work_duration :=
                some ((finalizeState record now).active_seconds +
                  (finalizeState record now).idle_seconds),
              total_active_duration :=
                some (finalizeState record now).active_seconds,
              total_idle_duration :=
                some (finalizeState record now).idle_seconds,
              total_break_duration :=
                some (finalizeState record now).lunch_seconds }) ∧
    checkForIdleUsersStep record none now = .skipped := by
  refine ⟨?_, ?_, rfl⟩
  · simp only [checkForIdleUsersStep]
    rw [if_pos hgap]
  · intro att h
    simp only [checkOut, hco, Option.isSome_none, Bool.false_eq_true,
      if_false] at h
    rw [CheckOutResult.checkedOut.injEq] at h
    exact h.symm

/-- Witness for C4's amended theorem: the concrete 2-hour-silent WORKING
record of the counterexample is checked out with every field finalised at
`now = 7200000`. -/
theorem checkForIdleUsersStep_checkout_at_now_witness :
    checkForIdleUsersStep
      { check_in_time := some 0,
        current_state := some WorkState.WORKING,
        last_state_change_at := some 0 }
      (some { lastInputTs := 5, lastHeartbeatTs := 0 }) 7200000
    = .autoCheckedOut
        (checkOut (some { check_in_time := some 0,
                          current_state := some WorkState.WORKING,
                          last_state_change_at := some 0 }) 7200000) ∧
    checkForIdleUsersStep
      { check_in_time := some 0,
        current_state := some WorkState.WORKING,
        last_state_change_at := some 0 } none 7200000 = .skipped :=
  ⟨(checkForIdleUsersStep_checkout_at_now _ { lastInputTs := 5, lastHeartbeatTs := 0 }
      7200000 rfl (by norm_num)).1,
   (checkForIdleUsersStep_checkout_at_now _ { lastInputTs := 5, lastHeartbeatTs := 0 }
      7200000 rfl (by norm_num)).2.2⟩

/-! ## C5 -/

/-- C5: for every record with `current_state = IDLE`, no check-out, and an
idle stretch longer than 30 minutes, one step of the excessive-idle closer
sets `check_out_time = last_state_change_at + 30 minutes`, credits exactly
1800 seconds to `idle_seconds` via the finalisation (leaving
`active_seconds` and `lunch_seconds` untouched and clearing the state
pair), closes open audit segments and open lunch breaks at that capped
time, writes the legacy mirror totals with
`total_work_duration = active_seconds + idle_seconds`, and clears the
user's cache entries. -/
theorem autoCheckOutIdleStep_caps_idle
    (record : AttendanceRecord) (lastStateChangeAt now : Int)
    (hstate : record.current_state = some WorkState.IDLE)
    (hlast : record.last_state_change_at = some lastStateChangeAt)
    (hco : record.check_out_time = none)
    (hgap : 30 * 60 < Int.fdiv (now - lastStateChangeAt) 1000) :
    autoCheckOutIdleStep record now = some {
      attendance := { record with
        check_out_time := some (lastStateChangeAt + 30 * 60 * 1000),
        current_state := none,
        last_state_change_at := none,
        idle_seconds := record.idle_seconds + 30 * 60,
        total_work_duration :=
          some (record.active_seconds + (record.idle_seconds + 30 * 60)),
        total_active_duration := some record.active_seconds,
        total_idle_duration := some (record.idle_seconds + 30 * 60),
        total_break_duration := some record.lunch_seconds }
      activityLogsClosedAt := lastStateChangeAt + 30 * 60 * 1000
      lunchBreaksClosedAt := lastStateChangeAt + 30 * 60 * 1000
      cacheCleared := true } := by
  have hdur : max 0 (Int.fdiv (lastStateChangeAt + 30 * 60 * 1000 -
      lastStateChangeAt) 1000) = 30 * 60 := by
    have : lastStateChangeAt + 30 * 60 * 1000 - lastStateChangeAt =
        1800000 := by ring
    rw [this]
    decide
  simp only [autoCheckOutIdleStep, hstate, hlast, finalizeState, hco, hgap,
    and_self, if_true, hdur]

/-- Witness for C5: a record idle since time 0 with pre-existing counters,
reconciled at `now = 2000000` (2000 s), is checked out at 1800000 with
exactly 1800 more idle seconds. -/
theorem autoCheckOutIdleStep_caps_idle_witness :
    autoCheckOutIdleStep
      { check_in_time := some 0,
        current_state := some WorkState.IDLE,
        last_state_change_at := some 0,
        active_seconds := 300, idle_seconds := 60, lunch_seconds := 10 }
      2000000
    = some {
        attendance := {
          check_in_time := some 0,
          check_out_time := some 1800000,
          current_state := none,
          last_state_change_at := none,
          active_seconds := 300,
          idle_seconds := 1860,
          lunch_seconds := 10,
          total_work_duration := some 2160,
          total_active_duration := some 300,
          total_idle_duration := some 1860,
          total_break_duration := some 10 }
        activityLogsClosedAt := 1800000
        lunchBreaksClosedAt := 1800000
        cacheCleared := true } :=
  autoCheckOutIdleStep_caps_idle _ 0 2000000 rfl rfl rfl (by decide)

/-! ## C6 -/

/-- C6: for every same-day re-check-in at time `now` on a record whose
`check_out_time` is set (and not in the future): `idle_seconds` increases
by exactly `now − check_out_time` (in whole seconds), `active_seconds` and
`lunch_seconds` are unchanged, `check_out_time` and the four legacy mirror
totals are cleared, and `current_state` becomes WORKING with
`last_state_change_at = now`. -/
theorem checkIn_recheckin_credits_gap
    (ex : AttendanceRecord) (checkOutTime now : Int)
    (hco : ex.check_out_time = some checkOutTime)
    (hle : checkOutTime ≤ now) :
    checkIn (some ex) now = .checkedIn { ex with
      check_out_time := none,
      total_work_duration := none,
      total_active_duration := none,
      total_idle_duration := none,
      total_break_duration := none,
      idle_seconds := ex.idle_seconds + Int.fdiv (now - checkOutTime) 1000,
      current_state := some WorkState.WORKING,
      last_state_change_at := some now } := by
  have hgap : max 0 (Int.fdiv (now - checkOutTime) 1000) =
      Int.fdiv (now - checkOutTime) 1000 :=
    max_eq_right (fdiv_1000_nonneg (by omega))
  simp only [checkIn, hco, Option.some.injEq, reduceCtorEq, and_false,
    if_false, hgap, applyStateTransition]

/-- Witness for C6: a record checked out at 43200000 ms (active 10800 s)
re-checked in one hour later has the 3600-second gap added to idle, the
check-out fields cleared and state WORKING at the new time. -/
theorem checkIn_recheckin_credits_gap_witness :
    checkIn
      (some { check_in_time := some 0,
              check_out_time := some 43200000,
              active_seconds := 10800,
              total_work_duration := some 10800,
              total_active_duration := some 10800,
              total_idle_duration := some 0,
              total_break_duration := some 0 })
      46800000
    = .checkedIn
        { check_in_time := some 0,
          check_out_time := none,
          current_state := some WorkState.WORKING,
          last_state_change_at := some 46800000,
          active_seconds := 10800,
          idle_seconds := 3600,
          total_work_duration := none,
          total_active_duration := none,
          total_idle_duration := none,
          total_break_duration := none } :=
  checkIn_recheckin_credits_gap _ 43200000 46800000 rfl (by norm_num)

/-! ## C8 -/

/-- C8: for every committed operation on an attendance record that is not
yet checked out — check-in and re-check-in, heartbeat processing, the gap
detector's idle marking, the excessive-idle closer's step, and the final
check-out credit itself — the three counters never decrease
(`countersLE before after`), and in particular stay nonnegative: the two
State Engine primitives, through which every operation writes, preserve
`countersNonneg`. -/
theorem counters_monotone_nonneg
    (att ex record : AttendanceRecord) (cachedActivity : Option CachedActivity)
    (cached : CachedActivity) (sample : HeartbeatSample) (s : WorkState)
    (t now : Int) :
    countersLE att (applyStateTransition att s t) ∧
    countersLE att (finalizeState att t) ∧
    (countersNonneg att → countersNonneg (applyStateTransition att s t)) ∧
    (countersNonneg att → countersNonneg (finalizeState att t)) ∧
    (∀ r, checkIn (some ex) now = .checkedIn r → countersLE ex r) ∧
    (∀ r lts hbts,
      processHeartbeat (some att) cachedActivity sample now =
        .processed r lts hbts → countersLE att r) ∧
    (∀ r, checkForIdleUsersStep record (some cached) now = .markedIdle r →
      countersLE record r) ∧
    (∀ res, autoCheckOutIdleStep record now = some res →
      countersLE record res.attendance) ∧
    (∀ r, checkOut (some att) now = .checkedOut r → countersLE att r) := by
  have happ := countersLE_applyStateTransition
  have hfin := countersLE_finalizeState
  refine ⟨happ att s t, hfin att t, ?_, ?_, ?_, ?_, ?_, ?_, ?_⟩
  · intro hn
    have h := happ att s t
    exact ⟨le_trans hn.1 h.1, le_trans hn.2.1 h.2.1, le_trans hn.2.2 h.2.2⟩
  · intro hn
    have h := hfin att t
    exact ⟨le_trans hn.1 h.1, le_trans hn.2.1 h.2.1, le_trans hn.2.2 h.2.2⟩
  · intro r h
    simp only [checkIn] at h
    split at h
    · exact absurd h (by simp)
    · rw [CheckInResult.checkedIn.injEq] at h
      subst h
      cases hco : ex.check_out_time with
      | none =>
        simp only [hco]
        exact countersLE_trans (⟨le_refl _, le_refl _, le_refl _⟩ :
          countersLE ex { ex with check_in_time := some now }) (happ _ _ _)
      | some checkOutTime =>
        simp only [hco]
        refine countersLE_trans (b := { ex with
          check_out_time := none,
          total_work_duration := none,
          total_active_duration := none,
          total_idle_duration := none,
          total_break_duration := none,
          idle_seconds := ex.idle_seconds +
            max 0 (Int.fdiv (now - checkOutTime) 1000),
          current_state := none,
          last_state_change_at := none }) ?_ (happ _ _ _)
        have : (0 : Int) ≤ max 0 (Int.fdiv (now - checkOutTime) 1000) :=
          le_max_left _ _
        exact ⟨le_refl _, by simpa using this, le_refl _⟩
  · intro r lts hbts h
    simp only [processHeartbeat] at h
    split at h
    · exact absurd h (by simp)
    · by_cases hidle : 0 < sample.idle_time_seconds
      · simp only [if_pos hidle] at h
        split at h
        · exact absurd h (by simp)
        · rw [HeartbeatResult.processed.injEq] at h
          obtain ⟨h1, -, -⟩ := h
          subst h1
          exact countersLE_trans (countersLE_ite_apply att _ _ _)
            (countersLE_ite_apply _ _ _ _)
      · simp only [if_neg hidle] at h
        split at h
        · exact absurd h (by simp)
        · rw [HeartbeatResult.processed.injEq] at h
          obtain ⟨h1, -, -⟩ := h
          subst h1
          exact countersLE_trans (countersLE_ite_apply att _ _ _)
            (countersLE_ite_apply _ _ _ _)
  · intro r h
    simp only [checkForIdleUsersStep] at h
    split at h
    · exact absurd h (by simp)
    · split at h
      · rw [GapDetectorAction.markedIdle.injEq] at h
        subst h
        exact happ _ _ _
      · exact absurd h (by simp)
  · intro res h
    simp only [autoCheckOutIdleStep] at h
    split at h
    · split at h
      · rw [Option.some.injEq] at h
        subst h
        exact hfin _ _
      · exact absurd h (by simp)
    · exact absurd h (by simp)
  · intro r h
    simp only [checkOut] at h
    split at h
    · exact absurd h (by simp)
    · rw [CheckOutResult.checkedOut.injEq] at h
      subst h
      exact hfin _ _

/-- Witness for C8: the conjuncts with hypotheses, discharged on concrete
runs — a re-check-in, a processed heartbeat, a gap-detector idle marking,
an excessive-idle step and a check-out all leave the concrete record's
counters no smaller. -/
theorem counters_monotone_nonneg_witness :
    countersNonneg (applyStateTransition
      { current_state := some WorkState.WORKING,
        last_state_change_at := some 0, active_seconds := 4 }
      WorkState.IDLE 9000) ∧
    countersLE
      { check_in_time := some 0, check_out_time := some 1000 }
      { check_in_time := some 0,
        current_state := some WorkState.WORKING,
        last_state_change_at := some 61000, idle_seconds := 60 } ∧
    countersLE
      { check_in_time := some 0,
        current_state := some WorkState.WORKING,
        last_state_change_at := some 0 }
      { check_in_time := some 0,
        current_state := some WorkState.WORKING,
        last_state_change_at := some 0 } ∧
    countersLE
      { check_in_time := some 0,
        current_state := some WorkState.IDLE,
        last_state_change_at := some 0 }
      { check_in_time := some 0,
        check_out_time := some 1800000,
        idle_seconds := 1800,
        total_work_duration := some 1800,
        total_active_duration := some 0,
        total_idle_duration := some 1800,
        total_break_duration := some 0 } ∧
    countersLE
      { check_in_time := some 0,
        current_state := some WorkState.WORKING,
        last_state_change_at := some 0 }
      { check_in_time := some 0,
        check_out_time := some 5000,
        active_seconds := 5,
        total_work_duration := some 5,
        total_active_duration := some 5,
        total_idle_duration := some 0,
        total_break_duration := some 0 } := by
  refine ⟨?_, ?_, ?_, ?_, ?_⟩
  · exact (counters_monotone_nonneg
      { current_state := some WorkState.WORKING,
        last_state_change_at := some 0, active_seconds := 4 }
      { } { } none { lastInputTs := 0, lastHeartbeatTs := 0 } { }
      WorkState.IDLE 9000 0).2.2.1 (by decide)
  · exact (counters_monotone_nonneg { }
      { check_in_time := some 0, check_out_time := some 1000 }
      { } none { lastInputTs := 0, lastHeartbeatTs := 0 } { }
      WorkState.IDLE 0 61000).2.2.2.2.1 _ (by decide)
  · exact (counters_monotone_nonneg
      { check_in_time := some 0,
        current_state := some WorkState.WORKING,
        last_state_change_at := some 0 }
      { } { } none { lastInputTs := 0, lastHeartbeatTs := 0 }
      { mouse_clicks := 2 } WorkState.IDLE 0 1000).2.2.2.2.2.1
      _ 1000 1000 (by decide)
  · exact (counters_monotone_nonneg { } { }
      { check_in_time := some 0,
        current_state := some WorkState.IDLE,
        last_state_change_at := some 0 }
      none { lastInputTs := 0, lastHeartbeatTs := 0 } { }
      WorkState.IDLE 0 2000000).2.2.2.2.2.2.2.1
      { attendance :=
          { check_in_time := some 0,
            check_out_time := some 1800000,
            idle_seconds := 1800,
            total_work_duration := some 1800,
            total_active_duration := some 0,
            total_idle_duration := some 1800,
            total_break_duration := some 0 },
        activityLogsClosedAt := 1800000,
        lunchBreaksClosedAt := 1800000,
        cacheCleared := true } (by decide)
  · exact (counters_monotone_nonneg
      { check_in_time := some 0,
        current_state := some WorkState.WORKING,
        last_state_change_at := some 0 }
      { } { } none { lastInputTs := 0, lastHeartbeatTs := 0 } { }
      WorkState.IDLE 0 5000).2.2.2.2.2.2.2.2 _ (by decide)

end Attendance
